import Mathlib

/-!
Verification of the resumable, hierarchy-aware synchronization engine of the
`reader_scraper` repository.  The definitions below are shallow embeddings of
the Python source: `SyncState`, `SyncStats` and friends from
`src/api/sync_buzzheavier.py`, and the modular re-implementations under
`src/api/host/services/`.  Each theorem settles one claim about the spec.
-/

set_option autoImplicit false

namespace ReaderScraper

/-! ## Resume state store (`SyncState` in `src/api/sync_buzzheavier.py`)

`uploaded_files` and `failed_files` are Python sets of path strings;
`file_hashes` is a dict from path to content hash.  Dict lookup with a
missing key (`dict.get`) returns `None`, so we model it as
`String → Option String`. -/

structure SyncState where
  uploaded_files : Finset String
  failed_files : Finset String
  file_hashes : String → Option String

/-- The freshly-constructed state (`SyncState.__init__`): all empty. -/
def SyncState.empty : SyncState :=
  { uploaded_files := ∅, failed_files := ∅, file_hashes := fun _ => none }

/-- `SyncState.mark_uploaded`: adds the path to `uploaded_files`, records the
hash in `file_hashes`, and discards the path from `failed_files`. -/
def SyncState.mark_uploaded (s : SyncState) (file_path file_hash : String) : SyncState :=
  { uploaded_files := insert file_path s.uploaded_files
    failed_files := s.failed_files.erase file_path
    file_hashes := fun q => if q = file_path then some file_hash else s.file_hashes q }

/-- `SyncState.mark_failed`: adds the path to `failed_files` and discards it
from `uploaded_files` (the hash map is untouched). -/
def SyncState.mark_failed (s : SyncState) (file_path : String) : SyncState :=
  { uploaded_files := s.uploaded_files.erase file_path
    failed_files := insert file_path s.failed_files
    file_hashes := s.file_hashes }

/-- `SyncState.is_uploaded`: `file_path in self.uploaded_files and
self.file_hashes.get(file_path) == current_hash`. -/
def SyncState.is_uploaded (s : SyncState) (file_path current_hash : String) : Bool :=
  decide (file_path ∈ s.uploaded_files) && (s.file_hashes file_path == some current_hash)

/-- One mutation of the resume state: the two marking operations. -/
inductive MarkOp where
  | markUploaded (path hash : String)
  | markFailed (path : String)

/-- Apply one marking operation. -/
def SyncState.applyOp (s : SyncState) : MarkOp → SyncState
  | .markUploaded p h => s.mark_uploaded p h
  | .markFailed p => s.mark_failed p

/-- Apply a sequence of marking operations, oldest first. -/
def SyncState.applyOps (s : SyncState) (ops : List MarkOp) : SyncState :=
  ops.foldl SyncState.applyOp s

lemma SyncState.applyOp_disjoint (s : SyncState)
    (h : s.uploaded_files ∩ s.failed_files = ∅) (op : MarkOp) :
    (s.applyOp op).uploaded_files ∩ (s.applyOp op).failed_files = ∅ := by
  have hmem : ∀ x, ¬(x ∈ s.uploaded_files ∧ x ∈ s.failed_files) := by
    intro x hx
    have : x ∈ s.uploaded_files ∩ s.failed_files := Finset.mem_inter.2 hx
    simp [h] at this
  cases op with
  | markUploaded p hsh =>
    ext x
    simp only [SyncState.applyOp, SyncState.mark_uploaded, Finset.mem_inter,
      Finset.mem_insert, Finset.mem_erase, Finset.not_mem_empty, iff_false]
    rintro ⟨hx1, hx2, hx3⟩
    rcases hx1 with rfl | hx1
    · exact hx2 rfl
    · exact hmem x ⟨hx1, hx3⟩
  | markFailed p =>
    ext x
    simp only [SyncState.applyOp, SyncState.mark_failed, Finset.mem_inter,
      Finset.mem_insert, Finset.mem_erase, Finset.not_mem_empty, iff_false]
    rintro ⟨⟨hx1, hx2⟩, hx3⟩
    rcases hx3 with rfl | hx3
    · exact hx1 rfl
    · exact hmem x ⟨hx2, hx3⟩

lemma SyncState.applyOps_disjoint (s : SyncState)
    (h : s.uploaded_files ∩ s.failed_files = ∅) (ops : List MarkOp) :
    (s.applyOps ops).uploaded_files ∩ (s.applyOps ops).failed_files = ∅ := by
  induction ops generalizing s with
  | nil => simpa [SyncState.applyOps] using h
  | cons op rest ih =>
    simpa [SyncState.applyOps, List.foldl_cons] using
      ih (s.applyOp op) (SyncState.applyOp_disjoint s h op)

/-- **C10.** Starting from the empty resume state, after any sequence of
`mark_uploaded` and `mark_failed` operations, no path is simultaneously in the
uploaded-files set and the failed-files set: `mark_uploaded` removes the path
from the failed set and `mark_failed` removes it from the uploaded set, so the
two sets stay disjoint. -/
theorem c10_mark_ops_keep_sets_disjoint (ops : List MarkOp) :
    (SyncState.empty.applyOps ops).uploaded_files ∩
      (SyncState.empty.applyOps ops).failed_files = ∅ :=
  SyncState.applyOps_disjoint SyncState.empty (by simp [SyncState.empty]) ops

/-- **C1.** `is_uploaded(path, hash)` is true only if the path is in the
uploaded set and the stored hash for the path equals the queried hash; in
particular, when the stored hash differs from the queried hash it returns
false even if the path was previously marked uploaded. -/
theorem c1_is_uploaded_requires_matching_hash (s : SyncState) (p h : String) :
    (s.is_uploaded p h = true → p ∈ s.uploaded_files ∧ s.file_hashes p = some h) ∧
    (s.file_hashes p ≠ some h → s.is_uploaded p h = false) := by
  constructor
  · intro hu
    have := hu
    simp only [SyncState.is_uploaded, Bool.and_eq_true, decide_eq_true_eq, beq_iff_eq] at this
    exact this
  · intro hne
    simp only [SyncState.is_uploaded, Bool.and_eq_false_iff]
    right
    simpa [beq_iff_eq] using hne

/-- Witness for C1: a state where `"a"` was marked uploaded with hash `"h1"`;
querying with the different hash `"h2"` yields `false`. -/
theorem c1_is_uploaded_requires_matching_hash_witness :
    (SyncState.empty.mark_uploaded "a" "h1").is_uploaded "a" "h2" = false :=
  (c1_is_uploaded_requires_matching_hash
      (SyncState.empty.mark_uploaded "a" "h1") "a" "h2").2 (by decide)

/-! ## Run statistics (`SyncStatsManager` in `src/api/host/services/sync/stats.py`)

Counters protected by a lock in the source; each completed file unit leads to
exactly one of `add_uploaded`, `add_skipped`, `add_failed` in the
`as_completed` collection loop of `SyncManager._execute_uploads`
(`src/api/host/services/sync/manager.py`). -/

structure StatsState where
  total_files : Nat
  uploaded_files : Nat
  skipped_files : Nat
  failed_files : Nat

/-- Outcome of one file unit, as classified by `_execute_uploads` when
collecting a future's result (an exception also counts as `failed`). -/
inductive UploadOutcome where
  | uploaded
  | skipped
  | failed
deriving DecidableEq

/-- `SyncStatsManager.add_uploaded` (counter part). -/
def StatsState.add_uploaded (s : StatsState) : StatsState :=
  { s with uploaded_files := s.uploaded_files + 1 }

/-- `SyncStatsManager.add_skipped`. -/
def StatsState.add_skipped (s : StatsState) : StatsState :=
  { s with skipped_files := s.skipped_files + 1 }

/-- `SyncStatsManager.add_failed` (counter part). -/
def StatsState.add_failed (s : StatsState) : StatsState :=
  { s with failed_files := s.failed_files + 1 }

/-- The single counter update performed for one collected result in
`_execute_uploads`. -/
def StatsState.add_outcome (s : StatsState) : UploadOutcome → StatsState
  | .uploaded => s.add_uploaded
  | .skipped => s.add_skipped
  | .failed => s.add_failed

/-- `processed` as computed inside `SyncStatsManager.get_current_stats`:
`self.uploaded_files + self.skipped_files + self.failed_files`. -/
def StatsState.processed_files (s : StatsState) : Nat :=
  s.uploaded_files + s.skipped_files + s.failed_files

/-- `is_complete` as computed by `get_current_stats`:
`processed >= self.total_files`. -/
def StatsState.is_complete (s : StatsState) : Bool :=
  s.processed_files ≥ s.total_files

/-- The counter state observed after the collection loop of
`_execute_uploads` has handled `k` completed futures out of a run whose
worklist produced `outcomes` (one outcome per file unit; `total_files` is
fixed to the worklist length before workers start).  `k` smaller than the
worklist length models a cooperative stop breaking out of the loop. -/
def execute_uploads_stats (outcomes : List UploadOutcome) (k : Nat) : StatsState :=
  (outcomes.take k).foldl StatsState.add_outcome
    { total_files := outcomes.length, uploaded_files := 0, skipped_files := 0,
      failed_files := 0 }

lemma StatsState.processed_foldl (l : List UploadOutcome) (s : StatsState) :
    (l.foldl StatsState.add_outcome s).processed_files =
      s.processed_files + l.length := by
  induction l generalizing s with
  | nil => simp
  | cons o rest ih =>
    rw [List.foldl_cons, ih]
    cases o <;>
      simp [StatsState.add_outcome, StatsState.add_uploaded, StatsState.add_skipped,
        StatsState.add_failed, StatsState.processed_files, List.length_cons] <;>
      omega

lemma StatsState.total_foldl (l : List UploadOutcome) (s : StatsState) :
    (l.foldl StatsState.add_outcome s).total_files = s.total_files := by
  induction l generalizing s with
  | nil => simp
  | cons o rest ih =>
    cases o <;>
      simp [List.foldl_cons, StatsState.add_outcome, ih, StatsState.add_uploaded,
        StatsState.add_skipped, StatsState.add_failed]

/-- **C2.** With `total` fixed to the worklist size before workers start and
each file unit contributing at most one counter update, at every observation
point (after any number `k` of collected results) the counters satisfy
`uploaded + skipped + failed = processed = min k total ≤ total`; and
`processed = total` holds exactly when the collection loop has consumed the
whole worklist, i.e. when the run completes rather than stopping early —
equivalently, exactly when the code's own `is_complete` flag is set. -/
theorem c2_stats_invariant (outcomes : List UploadOutcome) (k : Nat) :
    (execute_uploads_stats outcomes k).processed_files = min k outcomes.length ∧
    (execute_uploads_stats outcomes k).processed_files ≤
      (execute_uploads_stats outcomes k).total_files ∧
    ((execute_uploads_stats outcomes k).processed_files =
        (execute_uploads_stats outcomes k).total_files ↔ outcomes.length ≤ k) ∧
    ((execute_uploads_stats outcomes k).is_complete = true ↔
      (execute_uploads_stats outcomes k).processed_files =
        (execute_uploads_stats outcomes k).total_files) := by
  have hproc : (execute_uploads_stats outcomes k).processed_files = min k outcomes.length := by
    simpa [execute_uploads_stats, StatsState.processed_files] using
      StatsState.processed_foldl (outcomes.take k)
        { total_files := outcomes.length, uploaded_files := 0, skipped_files := 0,
          failed_files := 0 }
  have htot : (execute_uploads_stats outcomes k).total_files = outcomes.length := by
    simpa [execute_uploads_stats] using
      StatsState.total_foldl (outcomes.take k)
        { total_files := outcomes.length, uploaded_files := 0, skipped_files := 0,
          failed_files := 0 }
  refine ⟨hproc, ?_, ?_, ?_⟩
  · rw [hproc, htot]; omega
  · rw [hproc, htot]; omega
  · rw [StatsState.is_complete, hproc, htot]
    constructor
    · intro hc
      have := of_decide_eq_true hc
      omega
    · intro hc
      exact decide_eq_true (by omega)

/-! ## Hierarchical records and the hierarchy resolver

`EstruturaHierarquica` is the dataclass shared by
`src/api/sync_buzzheavier.py` and `src/api/host/models/sync_models.py`.
`analyze_file_path` embeds `HierarchyAnalyzer.analyze_file_path`
(`src/api/host/services/file/hierarchy.py`), taking the already-split
relative path segments (`rel_path.split(os.sep)`; `os.path.relpath` never
produces empty segments) together with the aggregator (the root directory's
basename) and the two path strings stored in the record. -/

structure EstruturaHierarquica where
  agregador : String
  scan : String
  serie : String
  capitulo : String
  arquivo : String
  caminho_local : String
  caminho_relativo : String
deriving DecidableEq

/-- `EstruturaHierarquica.get_caminho_remoto`: the f-string
`f"{self.agregador}/{self.scan}/{self.serie}/{self.capitulo}"` (identical in
both copies of the dataclass). -/
def EstruturaHierarquica.get_caminho_remoto (e : EstruturaHierarquica) : String :=
  e.agregador ++ "/" ++ e.scan ++ "/" ++ e.serie ++ "/" ++ e.capitulo

/-- `HierarchyAnalyzer.analyze_file_path`, lines 44–88: reject fewer than 3
segments; 3 segments → `scan/serie/arquivo` with empty chapter; 4 segments →
`scan/serie/capitulo/arquivo`; deeper → the last three levels before the file
name; finally reject if any of aggregator, scan, series or filename is the
empty string (`if not all([...])`). -/
def analyze_file_path (agregador : String) (path_parts : List String)
    (file_path rel_path : String) : Option EstruturaHierarquica :=
  if path_parts.length < 3 then none
  else
    let arquivo := path_parts.getLastD ""
    let scan :=
      if path_parts.length = 3 ∨ path_parts.length = 4 then path_parts.getD 0 ""
      else path_parts.getD (path_parts.length - 4) ""
    let serie :=
      if path_parts.length = 3 ∨ path_parts.length = 4 then path_parts.getD 1 ""
      else path_parts.getD (path_parts.length - 3) ""
    let capitulo :=
      if path_parts.length = 3 then ""
      else if path_parts.length = 4 then path_parts.getD 2 ""
      else path_parts.getD (path_parts.length - 2) ""
    if agregador = "" ∨ scan = "" ∨ serie = "" ∨ arquivo = "" then none
    else some ⟨agregador, scan, serie, capitulo, arquivo, file_path, rel_path⟩

/-- **C4.** The hierarchy resolver rejects relative paths with fewer than 3
segments; with exactly 3 segments (and real, hence non-empty, path components
and root name) it resolves scan = segment 1, series = segment 2, chapter = "";
with exactly 4 segments it resolves scan/series/chapter from segments 1–3
(e.g. `ScanX/SeriesY/Cap01/img.png` gives chapter `"Cap01"`). -/
theorem c4_hierarchy_resolution (agregador fp rp : String) :
    (∀ parts : List String, parts.length < 3 →
      analyze_file_path agregador parts fp rp = none) ∧
    (∀ s se a : String, agregador ≠ "" → s ≠ "" → se ≠ "" → a ≠ "" →
      analyze_file_path agregador [s, se, a] fp rp =
        some ⟨agregador, s, se, "", a, fp, rp⟩) ∧
    (∀ s se c a : String, agregador ≠ "" → s ≠ "" → se ≠ "" → a ≠ "" →
      analyze_file_path agregador [s, se, c, a] fp rp =
        some ⟨agregador, s, se, c, a, fp, rp⟩) := by
  refine ⟨?_, ?_, ?_⟩
  · intro parts hlen
    simp [analyze_file_path, hlen]
  · intro s se a hag hs hse ha
    simp [analyze_file_path, List.getLastD, hag, hs, hse, ha]
  · intro s se c a hag hs hse ha
    simp [analyze_file_path, List.getLastD, hag, hs, hse, ha]

/-- Witness for C4 (scenario B): a depth-4 relative path resolves its third
segment as the chapter. -/
theorem c4_hierarchy_resolution_witness :
    analyze_file_path "Agg" ["ScanX", "SeriesY", "Cap01", "img.png"]
        "/root/Agg/ScanX/SeriesY/Cap01/img.png" "ScanX/SeriesY/Cap01/img.png" =
      some ⟨"Agg", "ScanX", "SeriesY", "Cap01", "img.png",
        "/root/Agg/ScanX/SeriesY/Cap01/img.png", "ScanX/SeriesY/Cap01/img.png"⟩ :=
  (c4_hierarchy_resolution "Agg" "/root/Agg/ScanX/SeriesY/Cap01/img.png"
      "ScanX/SeriesY/Cap01/img.png").2.2 "ScanX" "SeriesY" "Cap01" "img.png"
    (by decide) (by decide) (by decide) (by decide)

/-! ## Remote directory levels (`garantir_caminho_remoto`, `src/api/sync_buzzheavier.py`)

The levels walked by the provisioner: scan under the hard-coded `Gikamura`
root, then the series, then — only when the chapter is non-empty — the
chapter. -/

/-- The `niveis` list built at lines 1193–1200 of `sync_buzzheavier.py`. -/
def niveis (e : EstruturaHierarquica) : List (String × String) :=
  [("Gikamura", e.scan), ("Gikamura/" ++ e.scan, e.serie)] ++
    (if e.capitulo ≠ "" then
      [("Gikamura/" ++ e.scan ++ "/" ++ e.serie, e.capitulo)]
    else [])

/-- **C7 counterexample.** The resolver maps the depth-3 path
`ScanX/SeriesY/img.jpg` under root `Agg` to a record with empty chapter, but
the derived remote path string is `"Agg/ScanX/SeriesY/"` — with a trailing
separator from the always-appended empty chapter — not `"Agg/ScanX/SeriesY"`
as the claim states. -/
theorem c7_remote_path_counterexample :
    (analyze_file_path "Agg" ["ScanX", "SeriesY", "img.jpg"]
        "/root/Agg/ScanX/SeriesY/img.jpg" "ScanX/SeriesY/img.jpg").map
        EstruturaHierarquica.get_caminho_remoto = some "Agg/ScanX/SeriesY/" ∧
    "Agg/ScanX/SeriesY/" ≠ "Agg/ScanX/SeriesY" := by
  constructor
  · decide
  · decide

/-- **C7 (amended).** For every hierarchical record with empty chapter, the
derived remote path string is `aggregator ++ "/" ++ scan ++ "/" ++ serie ++ "/"`
— i.e. `aggregator/scan/series` followed by a trailing separator left by the
empty chapter segment — and the provisioner's level list contains only the
scan and series levels, so no chapter directory is ever created for such
records. -/
theorem c7_remote_path_empty_chapter (e : EstruturaHierarquica)
    (h : e.capitulo = "") :
    e.get_caminho_remoto = e.agregador ++ "/" ++ e.scan ++ "/" ++ e.serie ++ "/" ∧
    (niveis e).map Prod.snd = [e.scan, e.serie] := by
  constructor
  · simp [EstruturaHierarquica.get_caminho_remoto, h]
  · simp [niveis, h]

/-- Witness for the amended C7 at the record resolved from
`Agg/ScanX/SeriesY/img.jpg`. -/
theorem c7_remote_path_empty_chapter_witness :
    EstruturaHierarquica.get_caminho_remoto
        ⟨"Agg", "ScanX", "SeriesY", "", "img.jpg",
          "/root/Agg/ScanX/SeriesY/img.jpg", "ScanX/SeriesY/img.jpg"⟩ =
      "Agg" ++ "/" ++ "ScanX" ++ "/" ++ "SeriesY" ++ "/" ∧
    (niveis ⟨"Agg", "ScanX", "SeriesY", "", "img.jpg",
        "/root/Agg/ScanX/SeriesY/img.jpg", "ScanX/SeriesY/img.jpg"⟩).map Prod.snd =
      ["ScanX", "SeriesY"] :=
  c7_remote_path_empty_chapter
    ⟨"Agg", "ScanX", "SeriesY", "", "img.jpg",
      "/root/Agg/ScanX/SeriesY/img.jpg", "ScanX/SeriesY/img.jpg"⟩ rfl

/-! ## Remote directory provisioner (`garantir_caminho_remoto`)

The remote API is modelled by two response streams consumed in call order:
one for directory listings (`requests.get`, lines 1213 and 1256) and one for
creation calls (`requests.post`, line 1246).  A second listing of the same
parent may return different children than the first — exactly the concurrent
creator the conflict branch handles. -/

structure RemoteItem where
  name : String
  id : String
  itemType : String
  isDirectory : Bool
deriving DecidableEq

/-- A directory-listing response: HTTP 200 with children, or any other
status. -/
inductive ListResp where
  | ok (children : List RemoteItem)
  | err (status : Nat)
deriving DecidableEq

/-- A directory-creation response: HTTP 200 with the new id, HTTP 409
conflict, any other status, or a connection failure
(`requests.exceptions.RequestException`). -/
inductive CreateResp where
  | ok (id : String)
  | conflict
  | err (status : Nat)
  | connErr
deriving DecidableEq

/-- The directory test at lines 1229–1231: `type == 'DIRECTORY' or
type == 'FOLDER' or isDirectory == True`. -/
def RemoteItem.is_directory (item : RemoteItem) : Bool :=
  item.itemType == "DIRECTORY" || item.itemType == "FOLDER" || item.isDirectory

/-- The search loop at lines 1227–1234: first child whose name matches and
which is a directory. -/
def find_diretorio (children : List RemoteItem) (nome : String) : Option RemoteItem :=
  children.find? (fun item => item.name == nome && item.is_directory)

/-- Result of provisioning one level: the resolved id (`None` on abort), the
directory cache afterwards, and the unconsumed response streams. -/
structure NivelResult where
  id : Option String
  cache : List (String × String)
  listRest : List ListResp
  createRest : List CreateResp
deriving DecidableEq

/-- The body of the per-level loop of `garantir_caminho_remoto`
(lines 1203–1290): consult the cache; otherwise list the parent; search for
the directory; create it when absent; on HTTP 409 re-list the parent and
recover the id; on any other listing or creation failure return no id.  The
cache write at line 1289 happens only after the level resolved
successfully. -/
def processar_nivel (caminho_cache nome : String) (cache : List (String × String))
    (lrs : List ListResp) (crs : List CreateResp) : NivelResult :=
  match cache.lookup caminho_cache with
  | some cid => ⟨some cid, cache, lrs, crs⟩
  | none =>
    match lrs with
    | [] => ⟨none, cache, [], crs⟩
    | ListResp.err _ :: rest => ⟨none, cache, rest, crs⟩
    | ListResp.ok children :: rest =>
      match find_diretorio children nome with
      | some item => ⟨some item.id, (caminho_cache, item.id) :: cache, rest, crs⟩
      | none =>
        match crs with
        | [] => ⟨none, cache, rest, []⟩
        | CreateResp.ok newId :: crest =>
          ⟨some newId, (caminho_cache, newId) :: cache, rest, crest⟩
        | CreateResp.err _ :: crest => ⟨none, cache, rest, crest⟩
        | CreateResp.connErr :: crest => ⟨none, cache, rest, crest⟩
        | CreateResp.conflict :: crest =>
          match rest with
          | [] => ⟨none, cache, [], crest⟩
          | ListResp.err _ :: rest2 => ⟨none, cache, rest2, crest⟩
          | ListResp.ok children2 :: rest2 =>
            match find_diretorio children2 nome with
            | some item => ⟨some item.id, (caminho_cache, item.id) :: cache, rest2, crest⟩
            | none => ⟨none, cache, rest2, crest⟩

/-- The level walk of `garantir_caminho_remoto`: fold `processar_nivel` over
the `niveis` list, threading the parent id and the response streams; abort as
soon as one level fails. -/
def garantir_niveis : List (String × String) → String → List (String × String) →
    List ListResp → List CreateResp → Option String × List (String × String)
  | [], parentId, cache, _, _ => (some parentId, cache)
  | (caminho_cache, nome) :: restNiveis, _, cache, lrs, crs =>
    let r := processar_nivel caminho_cache nome cache lrs crs
    match r.id with
    | none => (none, r.cache)
    | some newParent => garantir_niveis restNiveis newParent r.cache r.listRest r.createRest

/-- `garantir_caminho_remoto` (lines 1165–1294): return the cached id for the
full remote path when present; otherwise require the pre-cached `Gikamura`
root and walk the levels, caching the full path on success. -/
def garantir_caminho_remoto (e : EstruturaHierarquica)
    (cache : List (String × String)) (lrs : List ListResp) (crs : List CreateResp) :
    Option String × List (String × String) :=
  let caminho_remoto := e.get_caminho_remoto
  match cache.lookup caminho_remoto with
  | some cid => (some cid, cache)
  | none =>
    match cache.lookup "Gikamura" with
    | none => (none, cache)
    | some gid =>
      match garantir_niveis (niveis e) gid cache lrs crs with
      | (none, cache') => (none, cache')
      | (some finalId, cache') => (some finalId, (caminho_remoto, finalId) :: cache')

/-- **C3.** For a level not yet cached: when the create call returns a
conflict (HTTP 409), the provisioner re-lists the parent and resolves to the
id of the concurrently created directory, caching it; and on a listing error,
a creation error (non-200/409 status or connection failure), or a conflict
whose re-listing fails or still lacks the directory, it resolves no id and
leaves the directory cache unmodified for that level. -/
theorem c3_provision_conflict_and_errors (caminho_cache nome : String)
    (cache : List (String × String)) (hkey : cache.lookup caminho_cache = none) :
    (∀ (ch ch2 : List RemoteItem) (item : RemoteItem) (rest2 : List ListResp)
        (crest : List CreateResp),
      find_diretorio ch nome = none → find_diretorio ch2 nome = some item →
      processar_nivel caminho_cache nome cache
          (ListResp.ok ch :: ListResp.ok ch2 :: rest2) (CreateResp.conflict :: crest) =
        ⟨some item.id, (caminho_cache, item.id) :: cache, rest2, crest⟩) ∧
    (∀ (s : Nat) (rest : List ListResp) (crs : List CreateResp),
      processar_nivel caminho_cache nome cache (ListResp.err s :: rest) crs =
        ⟨none, cache, rest, crs⟩) ∧
    (∀ (ch : List RemoteItem) (rest : List ListResp) (s : Nat)
        (crest : List CreateResp),
      find_diretorio ch nome = none →
      processar_nivel caminho_cache nome cache (ListResp.ok ch :: rest)
          (CreateResp.err s :: crest) = ⟨none, cache, rest, crest⟩) ∧
    (∀ (ch : List RemoteItem) (rest : List ListResp) (crest : List CreateResp),
      find_diretorio ch nome = none →
      processar_nivel caminho_cache nome cache (ListResp.ok ch :: rest)
          (CreateResp.connErr :: crest) = ⟨none, cache, rest, crest⟩) ∧
    (∀ (ch : List RemoteItem) (s : Nat) (rest2 : List ListResp)
        (crest : List CreateResp),
      find_diretorio ch nome = none →
      processar_nivel caminho_cache nome cache
          (ListResp.ok ch :: ListResp.err s :: rest2) (CreateResp.conflict :: crest) =
        ⟨none, cache, rest2, crest⟩) ∧
    (∀ (ch ch2 : List RemoteItem) (rest2 : List ListResp) (crest : List CreateResp),
      find_diretorio ch nome = none → find_diretorio ch2 nome = none →
      processar_nivel caminho_cache nome cache
          (ListResp.ok ch :: ListResp.ok ch2 :: rest2) (CreateResp.conflict :: crest) =
        ⟨none, cache, rest2, crest⟩) := by
  refine ⟨?_, ?_, ?_, ?_, ?_, ?_⟩
  · intro ch ch2 item rest2 crest h1 h2
    simp [processar_nivel, hkey, h1, h2]
  · intro s rest crs
    simp [processar_nivel, hkey]
  · intro ch rest s crest h1
    simp [processar_nivel, hkey, h1]
  · intro ch rest crest h1
    simp [processar_nivel, hkey, h1]
  · intro ch s rest2 crest h1
    simp [processar_nivel, hkey, h1]
  · intro ch ch2 rest2 crest h1 h2
    simp [processar_nivel, hkey, h1, h2]

/-- Witness for C3: with an empty cache, an empty first listing, a conflicting
create and a re-listing that now contains `ScanX`, the level resolves to the
concurrent creator's id `id2` and caches it. -/
theorem c3_provision_conflict_and_errors_witness :
    processar_nivel "Gikamura" "ScanX" []
        (ListResp.ok [] :: ListResp.ok [⟨"ScanX", "id2", "DIRECTORY", false⟩] :: [])
        (CreateResp.conflict :: []) =
      ⟨some "id2", [("Gikamura", "id2")], [], []⟩ :=
  (c3_provision_conflict_and_errors "Gikamura" "ScanX" [] rfl).1
    [] [⟨"ScanX", "id2", "DIRECTORY", false⟩] ⟨"ScanX", "id2", "DIRECTORY", false⟩
    [] [] (by decide) (by decide)

/-! ## Series log cache (`src/api/sync_buzzheavier.py`, lines 656–782)

Per-series JSON journals: `analisar_status_capitulos` derives a status string
from each log's aggregate counters and history; `filtrar_arquivos_por_cache`
uses those statuses to pre-filter the worklist before any network call. -/

structure LogEntry where
  timestamp : String
  arquivo : String
  status : String
  detalhes : String
  hash : Option String
deriving DecidableEq

structure Estatisticas where
  total_arquivos : Nat
  sucessos : Nat
  falhas : Nat
  pulados : Nat
deriving DecidableEq

structure SerieLog where
  agregador : String
  scan : String
  serie : String
  historico : List LogEntry
  estatisticas : Estatisticas
deriving DecidableEq

/-- The per-series status computation inside `analisar_status_capitulos`
(lines 681–699): `consolidado` when a successful `.png` artifact is in the
history and all files succeeded, `completo` when all files succeeded,
`parcial` when some did, `pendente` otherwise. -/
def derive_status (log : SerieLog) : String :=
  if (log.historico.any
        (fun en => en.arquivo.endsWith ".png" && en.status == "sucesso")) = true ∧
      log.estatisticas.sucessos = log.estatisticas.total_arquivos ∧
      0 < log.estatisticas.total_arquivos then "consolidado"
  else if log.estatisticas.sucessos = log.estatisticas.total_arquivos ∧
      0 < log.estatisticas.total_arquivos then "completo"
  else if 0 < log.estatisticas.sucessos then "parcial"
  else "pendente"

/-- `analisar_status_capitulos`: map every loaded series log (keyed by
`agregador/scan/serie`) to its derived status. -/
def analisar_status_capitulos (logs : List (String × SerieLog)) :
    List (String × String) :=
  logs.map (fun p => (p.1, derive_status p.2))

/-- The series key `f"{agregador}/{scan}/{serie}"` used by both the log
loader and the filter (lines 670 and 743). -/
def chave_serie (e : EstruturaHierarquica) : String :=
  e.agregador ++ "/" ++ e.scan ++ "/" ++ e.serie

/-- `filtrar_arquivos_por_cache` (lines 734–782): drop a file when its series
status is `consolidado` or `completo`; keep it when the status is `parcial`,
anything else, or when the series has no log.  (The
`capitulos_processados` set in the source only deduplicates console
messages.) -/
def filtrar_arquivos_por_cache : List EstruturaHierarquica →
    List (String × String) → List EstruturaHierarquica
  | [], _ => []
  | e :: rest, status_capitulos =>
    match status_capitulos.lookup (chave_serie e) with
    | some st =>
      if st = "consolidado" ∨ st = "completo" then
        filtrar_arquivos_por_cache rest status_capitulos
      else e :: filtrar_arquivos_por_cache rest status_capitulos
    | none => e :: filtrar_arquivos_por_cache rest status_capitulos

/-- The keep test of the filter, as a Boolean predicate on one record. -/
def mantem_no_worklist (status_capitulos : List (String × String))
    (e : EstruturaHierarquica) : Bool :=
  match status_capitulos.lookup (chave_serie e) with
  | some st => !(st = "consolidado" ∨ st = "completo" : Bool)
  | none => true

lemma filtrar_cons (e : EstruturaHierarquica) (rest : List EstruturaHierarquica)
    (status_capitulos : List (String × String)) :
    filtrar_arquivos_por_cache (e :: rest) status_capitulos =
      if mantem_no_worklist status_capitulos e then
        e :: filtrar_arquivos_por_cache rest status_capitulos
      else filtrar_arquivos_por_cache rest status_capitulos := by
  show (match List.lookup (chave_serie e) status_capitulos with
    | some st =>
      if st = "consolidado" ∨ st = "completo" then
        filtrar_arquivos_por_cache rest status_capitulos
      else e :: filtrar_arquivos_por_cache rest status_capitulos
    | none => e :: filtrar_arquivos_por_cache rest status_capitulos) = _
  unfold mantem_no_worklist
  cases List.lookup (chave_serie e) status_capitulos with
  | none => simp
  | some st =>
    by_cases hst : st = "consolidado" ∨ st = "completo" <;> simp [hst]

lemma filtrar_eq_filter (estruturas : List EstruturaHierarquica)
    (status_capitulos : List (String × String)) :
    filtrar_arquivos_por_cache estruturas status_capitulos =
      estruturas.filter (mantem_no_worklist status_capitulos) := by
  induction estruturas with
  | nil => rfl
  | cons e rest ih =>
    rw [filtrar_cons, List.filter_cons, ih]

lemma lookup_analisar (logs : List (String × SerieLog)) (k : String) :
    (analisar_status_capitulos logs).lookup k = (logs.lookup k).map derive_status := by
  induction logs with
  | nil => rfl
  | cons p rest ih =>
    simp only [analisar_status_capitulos, List.map_cons, List.lookup]
    by_cases hk : k = p.1
    · simp [hk]
    · have : (k == p.1) = false := by simpa using hk
      simpa [this, analisar_status_capitulos] using ih

lemma derive_status_complete (l : SerieLog)
    (hsuc : l.estatisticas.sucessos = l.estatisticas.total_arquivos)
    (htot : 0 < l.estatisticas.total_arquivos) :
    derive_status l = "consolidado" ∨ derive_status l = "completo" := by
  unfold derive_status
  split_ifs with h1 h2 h3
  · exact Or.inl rfl
  · exact Or.inr rfl
  · exact absurd ⟨hsuc, htot⟩ h2
  · exact absurd ⟨hsuc, htot⟩ h2

/-- **C5.** The series-log pre-filter equals the plain worklist filter that
drops exactly the files whose series status is `consolidado` or `completo`:
every file of a series whose log shows `sucessos == total_arquivos > 0` is
removed from the worklist (no such file survives to be processed remotely),
while every file of a `parcial` or `pendente` series — or of a series with no
log — passes through. -/
theorem c5_cache_prefilter (estruturas : List EstruturaHierarquica)
    (logs : List (String × SerieLog)) :
    (filtrar_arquivos_por_cache estruturas (analisar_status_capitulos logs) =
      estruturas.filter (mantem_no_worklist (analisar_status_capitulos logs))) ∧
    (∀ (e : EstruturaHierarquica) (l : SerieLog),
      logs.lookup (chave_serie e) = some l →
      l.estatisticas.sucessos = l.estatisticas.total_arquivos →
      0 < l.estatisticas.total_arquivos →
      e ∉ filtrar_arquivos_por_cache estruturas (analisar_status_capitulos logs)) ∧
    (∀ e : EstruturaHierarquica,
      ((analisar_status_capitulos logs).lookup (chave_serie e) = some "parcial" ∨
       (analisar_status_capitulos logs).lookup (chave_serie e) = some "pendente" ∨
       (analisar_status_capitulos logs).lookup (chave_serie e) = none) →
      (e ∈ filtrar_arquivos_por_cache estruturas (analisar_status_capitulos logs) ↔
        e ∈ estruturas)) := by
  refine ⟨filtrar_eq_filter _ _, ?_, ?_⟩
  · intro e l hl hsuc htot hmem
    rw [filtrar_eq_filter] at hmem
    have hkeep : mantem_no_worklist (analisar_status_capitulos logs) e = true :=
      (List.mem_filter.1 hmem).2
    have hstat : (analisar_status_capitulos logs).lookup (chave_serie e) =
        some (derive_status l) := by
      rw [lookup_analisar, hl]; rfl
    rw [mantem_no_worklist, hstat] at hkeep
    rcases derive_status_complete l hsuc htot with h | h <;> simp [h] at hkeep
  · intro e hst
    rw [filtrar_eq_filter, List.mem_filter]
    have hkeep : mantem_no_worklist (analisar_status_capitulos logs) e = true := by
      rcases hst with h | h | h <;> simp [mantem_no_worklist, h]
    simp [hkeep]

/-- Witness for C5 (scenario E): a worklist of 5 files of the series
`Agg/ScanX/SeriesY`, whose log shows `sucessos == total_arquivos == 5`, is
filtered to nothing — all 5 files are skipped via the cache. -/
theorem c5_cache_prefilter_witness :
    ⟨"Agg", "ScanX", "SeriesY", "", "01.jpg", "/r/01.jpg", "ScanX/SeriesY/01.jpg"⟩ ∉
      filtrar_arquivos_por_cache
        (List.replicate 5
          ⟨"Agg", "ScanX", "SeriesY", "", "01.jpg", "/r/01.jpg", "ScanX/SeriesY/01.jpg"⟩)
        (analisar_status_capitulos
          [("Agg/ScanX/SeriesY",
            ⟨"Agg", "ScanX", "SeriesY", [], ⟨5, 5, 0, 0⟩⟩)]) :=
  (c5_cache_prefilter
      (List.replicate 5
        ⟨"Agg", "ScanX", "SeriesY", "", "01.jpg", "/r/01.jpg", "ScanX/SeriesY/01.jpg"⟩)
      [("Agg/ScanX/SeriesY", ⟨"Agg", "ScanX", "SeriesY", [], ⟨5, 5, 0, 0⟩⟩)]).2.1
    ⟨"Agg", "ScanX", "SeriesY", "", "01.jpg", "/r/01.jpg", "ScanX/SeriesY/01.jpg"⟩
    ⟨"Agg", "ScanX", "SeriesY", [], ⟨5, 5, 0, 0⟩⟩ (by decide) rfl (by decide)

/-! ## Upload retry with backoff (`sincronizar_arquivo`, lines 1369–1431)

Each iteration of the retry loop issues one `requests.put`; the outcome of
that attempt is either an `SSLError`, another exception (timeouts and
connection resets raised by `requests` land here), or an HTTP response.  On a
transient failure before the last attempt the code sleeps `2 ** attempt`
seconds and retries; on the last attempt it records the file as failed. -/

inductive AttemptResult where
  | sslError
  | otherExn
  | resp (status : Nat)
deriving DecidableEq

inductive UploadLoopResult where
  | response (status : Nat) (waits : List Nat)
  | failedOut (waits : List Nat)
deriving DecidableEq

/-- The `for attempt in range(max_retries)` loop (lines 1371–1410), with the
list of backoff sleeps accumulated.  One attempt outcome is consumed per
iteration; a response breaks out of the loop. -/
def upload_loop (maxRetries : Nat) : List AttemptResult → Nat → List Nat →
    UploadLoopResult
  | [], _, waits => .failedOut waits
  | .resp s :: _, _, waits => .response s waits
  | .sslError :: rest, attempt, waits =>
    if attempt < maxRetries - 1 then
      upload_loop maxRetries rest (attempt + 1) (waits ++ [2 ^ attempt])
    else .failedOut waits
  | .otherExn :: rest, attempt, waits =>
    if attempt < maxRetries - 1 then
      upload_loop maxRetries rest (attempt + 1) (waits ++ [2 ^ attempt])
    else .failedOut waits

structure UploadPhaseResult where
  ok : Bool
  state : SyncState
  outcome : UploadOutcome
  waits : List Nat

/-- The upload phase of `sincronizar_arquivo` after the remote-existence
check: run the retry loop with the hard-coded `max_retries = 3`; on a
200/201 response count the file uploaded and record its hash in the resume
state (when integrity hashing supplied one); on any other status or on
exhausting the attempts count it failed and mark it failed. -/
def sincronizar_upload_phase (attempts : List AttemptResult) (st : SyncState)
    (caminho_local : String) (local_hash : Option String) : UploadPhaseResult :=
  match upload_loop 3 attempts 0 [] with
  | .response s waits =>
    if s = 200 ∨ s = 201 then
      ⟨true,
        (match local_hash with
          | some h => st.mark_uploaded caminho_local h
          | none => st),
        .uploaded, waits⟩
    else ⟨false, st.mark_failed caminho_local, .failed, waits⟩
  | .failedOut waits => ⟨false, st.mark_failed caminho_local, .failed, waits⟩

/-- `FileUploader.upload_with_retry`
(`src/api/host/services/buzzheavier/uploader.py`, lines 159–184): up to
`max_attempts` calls of `upload_file`, returning true on the first success.
The attempt counter counts down; one Boolean per attempted call. -/
def upload_with_retry : Nat → List Bool → Bool
  | 0, _ => false
  | _ + 1, [] => false
  | n + 1, r :: rest => if r then true else upload_with_retry n rest

/-- **C6.** Transient transport failures (SSL errors, timeouts and resets
surfacing as exceptions) are retried with exponential backoff — the sleep
before retry `i + 1` is `2 ^ i` seconds — up to the 3-attempt ceiling: an
upload whose first `k ≤ 2` attempts fail transiently and whose next attempt
returns HTTP 200 ends recorded as uploaded, with the path marked uploaded in
the resume state and not marked failed; the host-service
`upload_with_retry` likewise succeeds when attempt `k + 1` of its 3-attempt
budget succeeds. -/
theorem c6_transient_retry_then_success (k : Nat) (st : SyncState)
    (p h : String) (hk : k ≤ 2) :
    (sincronizar_upload_phase (List.replicate k AttemptResult.sslError ++
        [AttemptResult.resp 200]) st p (some h)).ok = true ∧
    (sincronizar_upload_phase (List.replicate k AttemptResult.sslError ++
        [AttemptResult.resp 200]) st p (some h)).state = st.mark_uploaded p h ∧
    (sincronizar_upload_phase (List.replicate k AttemptResult.sslError ++
        [AttemptResult.resp 200]) st p (some h)).outcome = UploadOutcome.uploaded ∧
    (sincronizar_upload_phase (List.replicate k AttemptResult.sslError ++
        [AttemptResult.resp 200]) st p (some h)).waits =
      (List.range k).map (fun i => 2 ^ i) ∧
    upload_with_retry 3 (List.replicate k false ++ [true]) = true := by
  interval_cases k <;>
    refine ⟨rfl, ?_, rfl, rfl, rfl⟩ <;>
    simp [sincronizar_upload_phase, upload_loop]

/-- Witness for C6 (scenario F): two SSL failures then a 200 response on the
third attempt of the 3-attempt ceiling: the file ends uploaded, the resume
state records its hash, and the backoff sleeps were 1s then 2s. -/
theorem c6_transient_retry_then_success_witness :
    (sincronizar_upload_phase (List.replicate 2 AttemptResult.sslError ++
        [AttemptResult.resp 200]) SyncState.empty "p" (some "h")).ok = true ∧
    (sincronizar_upload_phase (List.replicate 2 AttemptResult.sslError ++
        [AttemptResult.resp 200]) SyncState.empty "p" (some "h")).state =
      SyncState.empty.mark_uploaded "p" "h" ∧
    (sincronizar_upload_phase (List.replicate 2 AttemptResult.sslError ++
        [AttemptResult.resp 200]) SyncState.empty "p" (some "h")).outcome =
      UploadOutcome.uploaded ∧
    (sincronizar_upload_phase (List.replicate 2 AttemptResult.sslError ++
        [AttemptResult.resp 200]) SyncState.empty "p" (some "h")).waits =
      (List.range 2).map (fun i => 2 ^ i) ∧
    upload_with_retry 3 (List.replicate 2 false ++ [true]) = true :=
  c6_transient_retry_then_success 2 SyncState.empty "p" "h" (by decide)

/-! ## Failed-file bookkeeping

`SyncStateManager.get_failed_files` (`src/api/host/services/sync/state.py`,
lines 46–61): read the persisted `failed_files` list, keep only paths whose
file still exists, write the pruned list back when anything was dropped, and
return it.  Disk existence is an oracle `String → Bool`. -/

/-- `SyncStateManager.get_failed_files`: returns the surviving paths and the
persisted document afterwards. -/
def get_failed_files (failed_files : List String) (existsOnDisk : String → Bool) :
    List String × List String :=
  let existing_files := failed_files.filter existsOnDisk
  (existing_files,
    if existing_files.length ≠ failed_files.length then existing_files
    else failed_files)

lemma length_filter_lt_of_exists_not {α : Type} (l : List α) (p : α → Bool)
    (h : ∃ x ∈ l, p x = false) : (l.filter p).length < l.length := by
  induction l with
  | nil => simp at h
  | cons a rest ih =>
    rcases h with ⟨x, hx, hpx⟩
    rcases List.mem_cons.1 hx with rfl | hx
    · rw [List.filter_cons, hpx]
      simpa using Nat.lt_succ_of_le (List.length_filter_le p rest)
    · rw [List.filter_cons]
      cases hpa : p a with
      | true => simpa using ih ⟨x, hx, hpx⟩
      | false => simpa using Nat.lt_succ_of_lt (ih ⟨x, hx, hpx⟩)

/-- **C8.** `get_failed_files` returns exactly the stored failed paths whose
file still exists on disk; when at least one entry's file no longer exists
the pruned list is persisted back, and when nothing was dropped the persisted
document is left as it was. -/
theorem c8_get_failed_files_prunes (failed : List String)
    (existsOnDisk : String → Bool) :
    (get_failed_files failed existsOnDisk).1 = failed.filter existsOnDisk ∧
    ((∃ p ∈ failed, existsOnDisk p = false) →
      (get_failed_files failed existsOnDisk).2 = failed.filter existsOnDisk) ∧
    ((∀ p ∈ failed, existsOnDisk p = true) →
      (get_failed_files failed existsOnDisk).2 = failed) := by
  refine ⟨rfl, ?_, ?_⟩
  · intro hdrop
    have hlt := length_filter_lt_of_exists_not failed existsOnDisk hdrop
    simp only [get_failed_files]
    rw [if_pos (by omega)]
  · intro hall
    have heq : failed.filter existsOnDisk = failed := List.filter_eq_self.2 hall
    simp only [get_failed_files, heq]
    simp

/-- Witness for C8: with `["a", "b"]` persisted and only `"a"` still on disk,
the pruned list `["a"]` is persisted back. -/
theorem c8_get_failed_files_prunes_witness :
    (get_failed_files ["a", "b"] (fun p => p == "a")).2 =
      List.filter (fun p => p == "a") ["a", "b"] :=
  (c8_get_failed_files_prunes ["a", "b"] (fun p => p == "a")).2.1
    ⟨"b", by decide, by decide⟩

/-! ## Retrying failed files (`SyncManager.retry_failed_files` and
`processar_arquivos_falhados`)

Everything after the empty-check — hierarchy mapping, the root-id lookup,
directory provisioning and the uploads themselves — is abstracted as a
`downstream` continuation returning a success flag and the number of upload
operations performed; both sources return before reaching any of it when the
pruned failed set is empty. -/

/-- `SyncManager.retry_failed_files`
(`src/api/host/services/sync/manager.py`, lines 184–210): prune the persisted
failed list, return `{'success': True}` with no work when it is empty,
otherwise hand the surviving paths to the upload pipeline. -/
def manager_retry_failed_files (failed_doc : List String)
    (existsOnDisk : String → Bool) (downstream : List String → Bool × Nat) :
    Bool × Nat :=
  let failed_files := (get_failed_files failed_doc existsOnDisk).1
  if failed_files.isEmpty then (true, 0) else downstream failed_files

/-- `processar_arquivos_falhados` (`src/api/sync_buzzheavier.py`, lines
1560–1572): `SyncState.retry_failed_files` keeps only failed paths still on
disk; when none survive the function returns `True` before the root-id
lookup or any upload. -/
def processar_arquivos_falhados (failed_set : List String)
    (existsOnDisk : String → Bool) (downstream : List String → Bool × Nat) :
    Bool × Nat :=
  let failed_files := failed_set.filter existsOnDisk
  if failed_files.isEmpty then (true, 0) else downstream failed_files

/-- **C9.** With an empty persisted failed-path set, both retry-failed entry
points return success having performed zero upload work, and the result does
not depend on the downstream upload pipeline at all — no remote call can have
been issued. -/
theorem c9_retry_empty_failed_set (existsOnDisk : String → Bool)
    (downstream downstream' : List String → Bool × Nat) :
    manager_retry_failed_files [] existsOnDisk downstream = (true, 0) ∧
    manager_retry_failed_files [] existsOnDisk downstream =
      manager_retry_failed_files [] existsOnDisk downstream' ∧
    processar_arquivos_falhados [] existsOnDisk downstream = (true, 0) ∧
    processar_arquivos_falhados [] existsOnDisk downstream =
      processar_arquivos_falhados [] existsOnDisk downstream' :=
  ⟨rfl, rfl, rfl, rfl⟩

end ReaderScraper
